import Mathlib

/-!
Verification of the row-processing workflow in `insta_automation_langgraph.py`.

The Python program is a LangGraph pipeline:
`filter_rows → generate_caption → create_instagram_post → create_facebook_post
→ clear_row → (loop | END)`, with conditional edges after the two publish steps
and after `clear_row`.  Every network call is replaced by an explicit oracle
argument (the response the external service would have produced), so each node
becomes a pure function on the workflow state, and the whole graph becomes a
fuel-indexed step function.  Retry loops are embedded with explicit event
traces (`attempt`/`sleep`) so that backoff behaviour is provable.
-/

set_option maxRecDepth 4000

/-- Python truthiness of a string: non-empty. -/
def truthyS (s : String) : Bool := decide (s ≠ "")

/-- Python truthiness of an `Optional[str]` field: present and non-empty. -/
def truthyO : Option String → Bool
  | none => false
  | some s => truthyS s

/-- One filtered spreadsheet row (`{"row_number": .., "prompt": .., "image_url": ..}`). -/
structure Row where
  row_number : Nat
  prompt : String
  image_url : String
deriving DecidableEq

/-- The LangGraph `WorkflowState` TypedDict. -/
structure WorkflowState where
  rows : List Row
  current_row_index : Nat
  caption : Option String
  post_id : Option String
  facebook_post_id : Option String
  error : Option String
deriving DecidableEq

/-- Observable events of a retry loop: an API attempt (with its 0-based index)
or a `time.sleep` of the given number of seconds. -/
inductive Event where
  | attempt : Nat → Event
  | sleep : Nat → Event
deriving DecidableEq

def Event.isAttempt : Event → Bool
  | .attempt _ => true
  | .sleep _ => false

/-- The sleep durations occurring in a trace, in order. -/
def sleepsOf : List Event → List Nat
  | [] => []
  | Event.sleep t :: es => t :: sleepsOf es
  | Event.attempt _ :: es => sleepsOf es

/-- Number of attempts in a trace. -/
def attemptCount : List Event → Nat
  | [] => 0
  | Event.attempt _ :: es => attemptCount es + 1
  | Event.sleep _ :: es => attemptCount es

/-- The prefix of a trace up to and including its last attempt event. -/
def upToLastAttempt (es : List Event) : List Event :=
  (es.reverse.dropWhile (fun e => !e.isAttempt)).reverse

/-- The sleeps that occur between attempts, i.e. before the last attempt of the
trace (a sleep after the final attempt is not between two attempts). -/
def sleepsBetweenAttempts (es : List Event) : List Nat :=
  sleepsOf (upToLastAttempt es)

/-- Outcome of one Google Sheets API attempt (`execute()` either returns a
value or raises `HttpError` with an HTTP status). -/
inductive SheetsCallOutcome (α : Type) where
  | ok : α → SheetsCallOutcome α
  | httpError : Nat → SheetsCallOutcome α
deriving DecidableEq

/-- Result of the sheets retry loop: success, a re-raised non-retryable
`HttpError`, or `Exception("Max retries exceeded for Google Sheets API call")`. -/
inductive SheetsRetryResult (α : Type) where
  | ok : α → SheetsRetryResult α
  | raised : Nat → SheetsRetryResult α
  | maxRetriesExceeded : SheetsRetryResult α
deriving DecidableEq

/-- `e.resp.status in [429, 500, 503]` (lines 91 and 307). -/
def sheetsRetryableStatus (st : Nat) : Bool := st == 429 || st == 500 || st == 503

/-- Whether one sheets attempt outcome takes the retry branch. -/
def sheetsCallRetryable {α : Type} : SheetsCallOutcome α → Bool
  | .ok _ => false
  | .httpError st => sheetsRetryableStatus st

/-- The `for attempt in range(max_retries): try ... except HttpError ... else raise`
loop of `filter_rows` (lines 80-97) and `clear_row` (lines 298-313).
`a` is the current attempt index, the last argument the remaining attempts. -/
def sheets_retry_go {α : Type} (resp : Nat → SheetsCallOutcome α) :
    Nat → Nat → SheetsRetryResult α × List Event
  | _, 0 => (.maxRetriesExceeded, [])
  | a, r + 1 =>
    match resp a with
    | .ok v => (.ok v, [.attempt a])
    | .httpError st =>
      if sheetsRetryableStatus st then
        let res := sheets_retry_go resp (a + 1) r
        (res.1, .attempt a :: .sleep (2 ^ a) :: res.2)
      else
        (.raised st, [.attempt a])

/-- The sheets retry loop with `max_retries = 5`, starting at attempt 0. -/
def sheets_retry {α : Type} (resp : Nat → SheetsCallOutcome α) :
    SheetsRetryResult α × List Event :=
  sheets_retry_go resp 0 5

/-- One HTTP response as the program inspects it: status code, the `id` field
of the JSON body (if any), the `error.code` / `error.error_subcode` fields
(if any), and the raw response text. -/
structure HttpResp where
  status : Nat
  id : Option String
  errorCode : Option Nat
  errorSubcode : Option Nat
  text : String
deriving DecidableEq

/-- `requests` `raise_for_status` raises exactly for statuses in `[400, 600)`. -/
def httpFatalStatus (st : Nat) : Bool := decide (400 ≤ st) && decide (st < 600)

/-- How one `media_publish` attempt is handled by the loop body (lines 202-221):
`success` (status 200 with a truthy `id`, return immediately); `retrySleep`
(non-200 with error code 9007 / subcode 2207027: sleep `2^attempt` and retry);
`fatalHttp` (non-200 in `[400,600)` without that pair: `raise_for_status`
raises); `reattempt` (every other case falls through the loop body with no
sleep: status 200 without a truthy id, or a non-retryable status outside
`[400,600)` for which `raise_for_status` is a no-op). -/
inductive AttemptClass where
  | success
  | retrySleep
  | fatalHttp
  | reattempt
deriving DecidableEq

def classifyIG (pr : HttpResp) : AttemptClass :=
  if pr.status = 200 then
    if truthyO pr.id then .success else .reattempt
  else if pr.errorCode = some 9007 ∧ pr.errorSubcode = some 2207027 then
    .retrySleep
  else if httpFatalStatus pr.status then
    .fatalHttp
  else
    .reattempt

/-- Result of the Instagram `media_publish` retry loop: a post id, an
`HTTPError` raised by `raise_for_status`, or the final
`Exception("Failed to publish media after 5 attempts: <text>")` carrying the
text of the last response. -/
inductive PublishResult where
  | success : String → PublishResult
  | fatal : Nat → PublishResult
  | exhausted : String → PublishResult
deriving DecidableEq

/-- The `media_publish` retry loop body (lines 200-223).  Arguments: oracle of
responses per attempt, current attempt index, text of the previous response
(for the exhaustion message), remaining attempts. -/
def media_publish_go (pub : Nat → HttpResp) :
    Nat → String → Nat → PublishResult × List Event
  | _, last, 0 => (.exhausted last, [])
  | a, _, r + 1 =>
    let pr := pub a
    match classifyIG pr with
    | .success => (.success (pr.id.getD ""), [.attempt a])
    | .retrySleep =>
      let res := media_publish_go pub (a + 1) pr.text r
      (res.1, .attempt a :: .sleep (2 ^ a) :: res.2)
    | .fatalHttp => (.fatal pr.status, [.attempt a])
    | .reattempt =>
      let res := media_publish_go pub (a + 1) pr.text r
      (res.1, .attempt a :: res.2)

/-- The `media_publish` loop with `max_retries = 5`. -/
def media_publish (pub : Nat → HttpResp) : PublishResult × List Event :=
  media_publish_go pub 0 "" 5

/-- `len(row) > 1 and row[0] and row[1]` (line 105). -/
def rowQualifies (row : List String) : Bool :=
  decide (1 < row.length) && truthyS (row.headD "") && truthyS ((row.get? 1).getD "")

/-- The list comprehension of lines 102-106, with the enumeration index made
an explicit accumulator: `idx + 2` becomes `i + 2` for the row at offset `i`
among the post-header rows. -/
def filter_rows_aux : Nat → List (List String) → List Row
  | _, [] => []
  | i, row :: rest =>
    if rowQualifies row then
      ⟨i + 2, row.headD "", (row.get? 1).getD ""⟩ :: filter_rows_aux (i + 1) rest
    else
      filter_rows_aux (i + 1) rest

/-- Filtering of the fetched table: skip the header (`values[1:]`), keep rows
with both first cells non-empty. -/
def filter_rows_core (values : List (List String)) : List Row :=
  filter_rows_aux 0 (values.drop 1)

/-- Node 1, `filter_rows` (lines 72-122): fetch with retry, filter, reset
index and error; on failure record the error in the context. -/
def filter_rows (resp : Nat → SheetsCallOutcome (List (List String)))
    (s : WorkflowState) : WorkflowState :=
  match (sheets_retry resp).1 with
  | .ok values =>
    { s with rows := filter_rows_core values, current_row_index := 0, error := none }
  | .raised st =>
    { s with error := some ("Error filtering rows: HttpError " ++ toString st) }
  | .maxRetriesExceeded =>
    { s with error := some "Error filtering rows: Max retries exceeded for Google Sheets API call" }

/-- Outcome of the single Gemini call in `generate_caption`. -/
inductive LLMOutcome where
  | ok : String → LLMOutcome
  | err : String → LLMOutcome
deriving DecidableEq

/-- Whitespace test for the `.strip()` model. -/
def isSpaceChar (c : Char) : Bool :=
  c == ' ' || c == '\t' || c == '\n' || c == '\r'

/-- Python `str.strip()` on the LLM response (line 149): drop whitespace from
both ends of the string. -/
def pyStrip (s : String) : String :=
  ⟨((s.data.dropWhile isSpaceChar).reverse.dropWhile isSpaceChar).reverse⟩

/-- Node 2, `generate_caption` (lines 125-158): no-op if `error` is truthy,
terminal error if no rows remain, otherwise one LLM call whose stripped
result becomes the caption. -/
def generate_caption (llm : LLMOutcome) (s : WorkflowState) : WorkflowState :=
  if truthyO s.error then s
  else if s.rows.length ≤ s.current_row_index then
    { s with error := some "No more rows to process" }
  else
    match llm with
    | .ok text => { s with caption := some (pyStrip text), error := none }
    | .err m => { s with error := some ("Error generating caption: " ++ m) }

/-- Node 3, `create_instagram_post` (lines 161-230): error guard, bound check,
container creation (`raise_for_status`, then the `id` field must be truthy),
then the `media_publish` retry loop.  Every raised exception is caught and
recorded as `Error creating Instagram post: ...`. -/
def create_instagram_post (cont : HttpResp) (pub : Nat → HttpResp)
    (s : WorkflowState) : WorkflowState :=
  if truthyO s.error then s
  else if s.rows.length ≤ s.current_row_index then
    { s with error := some "No more rows to process" }
  else if httpFatalStatus cont.status then
    { s with error := some ("Error creating Instagram post: HTTPError " ++ toString cont.status) }
  else if !truthyO cont.id then
    { s with error := some "Error creating Instagram post: Failed to create media container" }
  else
    match (media_publish pub).1 with
    | .success pid => { s with post_id := some pid, error := none }
    | .fatal st =>
      { s with error := some ("Error creating Instagram post: HTTPError " ++ toString st) }
    | .exhausted t =>
      let msg := "Error creating Instagram post: Failed to publish media after 5 attempts: " ++ t
      { s with error := some msg }

/-- Node 3b, `create_facebook_post` (lines 233-279): error guard, bound check,
one POST; `raise_for_status` failure or a non-truthy `id` is fatal for the row. -/
def create_facebook_post (resp : HttpResp) (s : WorkflowState) : WorkflowState :=
  if truthyO s.error then s
  else if s.rows.length ≤ s.current_row_index then
    { s with error := some "No more rows to process" }
  else if httpFatalStatus resp.status then
    let msg := "Error creating Facebook post: HTTPError " ++ toString resp.status
      ++ ". Response: " ++ resp.text
    { s with error := some msg }
  else if truthyO resp.id then
    { s with facebook_post_id := resp.id, error := none }
  else
    { s with error := some "Error creating Facebook post: Failed to create Facebook post" }

/-- Node 4, `clear_row` (lines 282-335): bound check (note: no error guard),
clear with retry, then — success or failure — increment the index, reset the
per-row fields and set `error` to `None` (lines 327-333). -/
def clear_row (cl : Nat → SheetsCallOutcome Unit) (s : WorkflowState) : WorkflowState :=
  if s.rows.length ≤ s.current_row_index then
    { s with error := some "No more rows to process" }
  else
    let base :=
      match (sheets_retry cl).1 with
      | .ok _ => s
      | .raised st => { s with error := some ("Error clearing row: HttpError " ++ toString st) }
      | .maxRetriesExceeded =>
        { s with error := some "Error clearing row: Max retries exceeded for Google Sheets API call" }
    { base with
        current_row_index := base.current_row_index + 1,
        caption := none,
        post_id := none,
        facebook_post_id := none,
        error := none }

/-- Conditional edge after Instagram (lines 338-344):
`state.get("post_id") and not state.get("error")`. -/
def decide_after_instagram (s : WorkflowState) : Bool :=
  truthyO s.post_id && !truthyO s.error

/-- Conditional edge after Facebook (lines 347-353). -/
def decide_after_facebook (s : WorkflowState) : Bool :=
  truthyO s.facebook_post_id && !truthyO s.error

/-- Conditional edge after `clear_row` (lines 356-362): loop back while rows
remain. -/
def decide_next_step (s : WorkflowState) : Bool :=
  decide (s.current_row_index < s.rows.length)

/-- The graph nodes; `endN` is LangGraph's `END`. -/
inductive Node where
  | filterRows
  | genCaption
  | igPost
  | fbPost
  | clearRowN
  | endN
deriving DecidableEq

/-- The external world for one run.  Oracles are indexed by the row index the
node is entered with (each node runs at most once per row index in a run):
`fetch` and `clear` additionally by the retry-attempt number, `igPublish` by
row index and attempt number. -/
structure Env where
  fetch : Nat → SheetsCallOutcome (List (List String))
  llm : Nat → LLMOutcome
  igContainer : Nat → HttpResp
  igPublish : Nat → Nat → HttpResp
  fb : Nat → HttpResp
  clear : Nat → Nat → SheetsCallOutcome Unit

/-- One node execution together with the edge taken afterwards
(lines 368-401: the edge map of the compiled graph). -/
def stepNode (env : Env) : Node → WorkflowState → Node × WorkflowState
  | .filterRows, s => (.genCaption, filter_rows env.fetch s)
  | .genCaption, s => (.igPost, generate_caption (env.llm s.current_row_index) s)
  | .igPost, s =>
    let s2 := create_instagram_post (env.igContainer s.current_row_index)
      (env.igPublish s.current_row_index) s
    (if decide_after_instagram s2 then .fbPost else .endN, s2)
  | .fbPost, s =>
    let s2 := create_facebook_post (env.fb s.current_row_index) s
    (if decide_after_facebook s2 then .clearRowN else .endN, s2)
  | .clearRowN, s =>
    let s2 := clear_row (env.clear s.current_row_index) s
    (if decide_next_step s2 then .genCaption else .endN, s2)
  | .endN, s => (.endN, s)

/-- Fuel-indexed graph execution (the fuel models the `recursion_limit`
configuration; reaching `endN` stops). -/
def runGo (env : Env) : Nat → Node → WorkflowState → Node × WorkflowState
  | 0, n, s => (n, s)
  | f + 1, n, s =>
    match n with
    | .endN => (.endN, s)
    | _ =>
      let p := stepNode env n s
      runGo env f p.1 p.2

/-- The initial state of `run_workflow` (lines 408-415). -/
def initState : WorkflowState := ⟨[], 0, none, none, none, none⟩

/-- A full run: start at the entry point `filter_rows`. -/
def runWorkflow (env : Env) (fuel : Nat) : Node × WorkflowState :=
  runGo env fuel .filterRows initState

/-- The trace of a retry loop all of whose attempts take the retry branch:
attempt `a`, sleep `2^a`, attempt `a+1`, sleep `2^(a+1)`, ... -/
def retryTraceFrom : Nat → Nat → List Event
  | _, 0 => []
  | a, r + 1 => .attempt a :: .sleep (2 ^ a) :: retryTraceFrom (a + 1) r

/-- The trace of a publish loop all of whose attempts fall through with no
sleep (status 200 without an id). -/
def attemptTraceFrom : Nat → Nat → List Event
  | _, 0 => []
  | a, r + 1 => .attempt a :: attemptTraceFrom (a + 1) r

/-- The complete trace of a retried call whose 5 attempts are all retryable. -/
def fullRetryTrace : List Event :=
  [.attempt 0, .sleep 1, .attempt 1, .sleep 2, .attempt 2, .sleep 4,
   .attempt 3, .sleep 8, .attempt 4, .sleep 16]

/-! ### Concrete instances used by scenario theorems and witnesses -/

/-- A single in-bounds row list used by several concrete states. -/
def rows1 : List Row := [⟨2, "p", "u"⟩]

/-- An in-bounds, error-free state for one row. -/
def stRowS : WorkflowState := ⟨rows1, 0, some "cap", none, none, none⟩

/-- An in-bounds state with a pre-existing truthy error. -/
def stErr : WorkflowState := ⟨rows1, 0, none, none, none, some "boom"⟩

/-- An in-bounds state carrying per-row values and a truthy error. -/
def stC8 : WorkflowState := ⟨rows1, 0, some "c", some "i", some "f", some "boom"⟩

/-- An in-bounds state carrying per-row values (for the clear-step theorems). -/
def stC3 : WorkflowState := ⟨rows1, 0, some "c", some "i", some "f", some "e"⟩

/-- An out-of-rows state with a pre-existing error (as left by a failed fetch). -/
def stC7 : WorkflowState := ⟨[], 0, none, none, none, some "Error filtering rows: x"⟩

/-- A clear oracle that always succeeds. -/
def clOK : Nat → SheetsCallOutcome Unit := fun _ => .ok ()

/-- A successful container-creation response. -/
def contOK : HttpResp := ⟨200, some "m1", none, none, "c"⟩

/-- Publish oracle: media-not-ready error pair on attempts 0-2, then 200 with
id "999" on attempt 3. -/
def pubC6 : Nat → HttpResp := fun n =>
  if n < 3 then ⟨400, none, some 9007, some 2207027, "notready"⟩
  else ⟨200, some "999", none, none, "ok"⟩

/-- Publish oracle whose responses always carry the (9007, 2207027) pair but
with HTTP status 200 (and no id). -/
def pubC5 : Nat → HttpResp := fun _ => ⟨200, none, some 9007, some 2207027, "nr"⟩

/-- Publish oracle answering 301 (non-2xx) without the error pair. -/
def pubC5b : Nat → HttpResp := fun _ => ⟨301, none, none, none, "redir"⟩

/-- Publish oracle answering 400 without the error pair. -/
def pubC5w : Nat → HttpResp := fun _ => ⟨400, none, none, none, "bad"⟩

/-- Publish oracle always answering 200 with no id field. -/
def pub200 : Nat → HttpResp := fun _ => ⟨200, none, none, none, "body"⟩

/-- Sheets oracle always raising a retryable 503. -/
def rsW : Nat → SheetsCallOutcome Unit := fun _ => .httpError 503

/-- Publish oracle always answering a retryable media-not-ready response. -/
def pubW : Nat → HttpResp := fun _ => ⟨503, none, some 9007, some 2207027, "nr"⟩

/-- Environment whose external calls all answer trivially (empty sheet). -/
def envTriv : Env where
  fetch := fun _ => .ok []
  llm := fun _ => .ok ""
  igContainer := fun _ => ⟨200, some "m", none, none, "c"⟩
  igPublish := fun _ _ => ⟨200, some "p", none, none, "ok"⟩
  fb := fun _ => ⟨200, some "f", none, none, "ok"⟩
  clear := fun _ _ => .ok ()

/-- Two data rows; every call succeeds except the Instagram publish of row
index 0, which fails fatally (HTTP 400, no media-not-ready pair).  Row index 1
would succeed at every step. -/
def envC1 : Env where
  fetch := fun _ => .ok [["h", "h"], ["p1", "u1"], ["p2", "u2"]]
  llm := fun _ => .ok "cap"
  igContainer := fun _ => ⟨200, some "m", none, none, "c"⟩
  igPublish := fun i _ =>
    if i == 0 then ⟨400, none, some 1, some 2, "bad"⟩ else ⟨200, some "p", none, none, "ok"⟩
  fb := fun _ => ⟨200, some "f", none, none, "ok"⟩
  clear := fun _ _ => .ok ()

/-- The final state of a run under `envC1`. -/
def stFinalC1 : WorkflowState :=
  ⟨[⟨2, "p1", "u1"⟩, ⟨3, "p2", "u2"⟩], 0, some "cap", none, none,
    some "Error creating Instagram post: HTTPError 400"⟩

/-- One data row whose Instagram publish fails fatally. -/
def envC9 : Env where
  fetch := fun _ => .ok [["h", "h"], ["p1", "u1"]]
  llm := fun _ => .ok "cap"
  igContainer := fun _ => ⟨200, some "m", none, none, "c"⟩
  igPublish := fun _ _ => ⟨400, none, some 1, some 2, "bad"⟩
  fb := fun _ => ⟨200, some "f", none, none, "ok"⟩
  clear := fun _ _ => .ok ()

/-- The final state of a run under `envC9`. -/
def stFinalC9 : WorkflowState :=
  ⟨[⟨2, "p1", "u1"⟩], 0, some "cap", none, none,
    some "Error creating Instagram post: HTTPError 400"⟩

/-- The in-bounds state of row 0 under `envC9` just before the Instagram step. -/
def stRow1 : WorkflowState := ⟨[⟨2, "p1", "u1"⟩], 0, some "cap", none, none, none⟩

/-! ### Helper lemmas -/

/-- Once at `END`, the run is over: no further node executes. -/
theorem runGo_endN (env : Env) (f : Nat) (s : WorkflowState) :
    runGo env f Node.endN s = (Node.endN, s) := by
  cases f <;> rfl

/-- Unfolding one execution step of a non-`END` node. -/
theorem runGo_succ (env : Env) (f : Nat) (n : Node) (s : WorkflowState) (h : n ≠ Node.endN) :
    runGo env (f + 1) n s = runGo env f (stepNode env n s).1 (stepNode env n s).2 := by
  cases n
  case endN => exact absurd rfl h
  all_goals rfl

/-- `generate_caption` never changes the row index. -/
theorem generate_caption_idx (llm : LLMOutcome) (s : WorkflowState) :
    (generate_caption llm s).current_row_index = s.current_row_index := by
  unfold generate_caption
  split
  · rfl
  split
  · rfl
  cases llm <;> rfl

/-- `create_instagram_post` never changes the row index. -/
theorem create_instagram_post_idx (cont : HttpResp) (pub : Nat → HttpResp) (s : WorkflowState) :
    (create_instagram_post cont pub s).current_row_index = s.current_row_index := by
  unfold create_instagram_post
  split
  · rfl
  split
  · rfl
  split
  · rfl
  split
  · rfl
  cases (media_publish pub).1 <;> rfl

/-- `create_facebook_post` never changes the row index. -/
theorem create_facebook_post_idx (resp : HttpResp) (s : WorkflowState) :
    (create_facebook_post resp s).current_row_index = s.current_row_index := by
  unfold create_facebook_post
  split
  · rfl
  split
  · rfl
  split
  · rfl
  split <;> rfl

/-- On an in-bounds row, `clear_row` — whatever the clear oracle does —
advances the index by one and resets the per-row fields and the error. -/
theorem clear_row_inbounds_eq (cl : Nat → SheetsCallOutcome Unit) (s : WorkflowState)
    (h : s.current_row_index < s.rows.length) :
    clear_row cl s =
      { s with current_row_index := s.current_row_index + 1, caption := none,
               post_id := none, facebook_post_id := none, error := none } := by
  unfold clear_row
  rw [if_neg (Nat.not_le.mpr h)]
  cases h2 : (sheets_retry cl).1 <;> rfl

/-! ### C3: clear step always advances -/

/-- Claim C3: for every row whose clear step is entered with the index in
bounds, after the clear step — whatever the clear oracle answers (success,
non-retryable failure, or exhaustion) — the index is incremented by exactly 1,
the caption and both post ids are reset to absent and the error is reset to
absent; a clear failure never blocks advancing. -/
theorem clear_row_advances (cl : Nat → SheetsCallOutcome Unit) (s : WorkflowState)
    (h : s.current_row_index < s.rows.length) :
    clear_row cl s =
      { s with current_row_index := s.current_row_index + 1, caption := none,
               post_id := none, facebook_post_id := none, error := none } :=
  clear_row_inbounds_eq cl s h

/-- Witness for C3 at a concrete state and an always-failing clear oracle. -/
theorem clear_row_advances_witness :
    clear_row (fun _ => SheetsCallOutcome.httpError 503) stC3 =
      { stC3 with current_row_index := 1, caption := none, post_id := none,
                  facebook_post_id := none, error := none } :=
  clear_row_advances (fun _ => SheetsCallOutcome.httpError 503) stC3 (by decide)

/-! ### C8: error short-circuit -/

/-- Counterexample for C8: `clear_row` does not no-op on a context whose error
is non-absent — entered in bounds with a truthy error, it still advances the
index and resets the fields, so not every workflow step propagates an errored
context unchanged. -/
theorem clear_row_ignores_error_counterexample :
    truthyO stC8.error = true ∧ clear_row clOK stC8 ≠ stC8 := by decide

/-- Claim C8 (amended): the three mid-pipeline steps — `generate_caption`,
`create_instagram_post` and `create_facebook_post` — no-op and return the
context unchanged whenever the error field is truthy at entry (`clear_row` and
`filter_rows` have no such guard). -/
theorem error_guard_noop (llm : LLMOutcome) (cont : HttpResp) (pub : Nat → HttpResp)
    (fbr : HttpResp) (s : WorkflowState) (h : truthyO s.error = true) :
    generate_caption llm s = s ∧ create_instagram_post cont pub s = s ∧
      create_facebook_post fbr s = s := by
  refine ⟨?_, ?_, ?_⟩ <;>
    simp [generate_caption, create_instagram_post, create_facebook_post, h]

/-- Witness for C8 at a concrete errored state. -/
theorem error_guard_noop_witness :
    generate_caption (LLMOutcome.ok "t") stErr = stErr ∧
      create_instagram_post contOK pubC6 stErr = stErr ∧
      create_facebook_post contOK stErr = stErr :=
  error_guard_noop (LLMOutcome.ok "t") contOK pubC6 contOK stErr (by decide)

/-! ### C7: out-of-rows entry -/

/-- Counterexample for C7: a step entered with `current_index ≥ len(rows)` but
with a pre-existing error (as left by a failed fetch on an empty `rows`) does
not set the error to "No more rows to process" — the error guard fires first
and the old error is kept. -/
theorem no_more_rows_error_guard_counterexample :
    stC7.rows.length ≤ stC7.current_row_index ∧
      generate_caption (LLMOutcome.ok "t") stC7 = stC7 ∧
      stC7.error ≠ some "No more rows to process" := by decide

/-- Claim C7 (amended): any step entered with `current_index ≥ length(rows)`
and (for the three guarded steps) no pre-existing error sets the error to
exactly "No more rows to process", touches nothing else, and the run
terminates at `END` for that invocation; `clear_row` does so even with a
pre-existing error. -/
theorem out_of_rows_terminal (env : Env) (f : Nat) (s : WorkflowState)
    (hb : s.rows.length ≤ s.current_row_index) :
    (s.error = none →
      runGo env (f + 2) Node.genCaption s =
        (Node.endN, { s with error := some "No more rows to process" }) ∧
      runGo env (f + 1) Node.igPost s =
        (Node.endN, { s with error := some "No more rows to process" }) ∧
      runGo env (f + 1) Node.fbPost s =
        (Node.endN, { s with error := some "No more rows to process" })) ∧
    runGo env (f + 1) Node.clearRowN s =
      (Node.endN, { s with error := some "No more rows to process" }) := by
  have hnd : ¬ s.current_row_index < s.rows.length := Nat.not_lt.mpr hb
  constructor
  · intro he
    have hgen : generate_caption (env.llm s.current_row_index) s =
        { s with error := some "No more rows to process" } := by
      simp [generate_caption, he, truthyO, hb]
    have hig : create_instagram_post (env.igContainer s.current_row_index)
        (env.igPublish s.current_row_index) s =
        { s with error := some "No more rows to process" } := by
      simp [create_instagram_post, he, truthyO, hb]
    have hfb : create_facebook_post (env.fb s.current_row_index) s =
        { s with error := some "No more rows to process" } := by
      simp [create_facebook_post, he, truthyO, hb]
    have htr : truthyO ({ s with error := some "No more rows to process" } : WorkflowState).error
        = true := rfl
    have hig2 : runGo env (f + 1) Node.igPost
        ({ s with error := some "No more rows to process" }) =
        (Node.endN, { s with error := some "No more rows to process" }) := by
      rw [runGo_succ env f Node.igPost _ (by simp)]
      have hnoop : create_instagram_post
          (env.igContainer ({ s with error := some "No more rows to process" } :
            WorkflowState).current_row_index)
          (env.igPublish ({ s with error := some "No more rows to process" } :
            WorkflowState).current_row_index)
          ({ s with error := some "No more rows to process" }) =
          { s with error := some "No more rows to process" } := by
        simp [create_instagram_post, htr]
      simp [stepNode, hnoop, decide_after_instagram, htr, runGo_endN]
    refine ⟨?_, ?_, ?_⟩
    · show runGo env (f + 1 + 1) Node.genCaption s = _
      rw [runGo_succ env (f + 1) Node.genCaption s (by simp)]
      simp only [stepNode, hgen]
      exact hig2
    · rw [runGo_succ env f Node.igPost s (by simp)]
      simp [stepNode, hig, decide_after_instagram, htr, runGo_endN]
    · rw [runGo_succ env f Node.fbPost s (by simp)]
      simp [stepNode, hfb, decide_after_facebook, htr, runGo_endN]
  · have hclr : clear_row (env.clear s.current_row_index) s =
        { s with error := some "No more rows to process" } := by
      simp [clear_row, hb]
    rw [runGo_succ env f Node.clearRowN s (by simp)]
    simp [stepNode, hclr, decide_next_step, hnd, runGo_endN]

/-- Witness for C7: the empty-rows state entered at `generate_caption`
terminates with exactly the "No more rows to process" error. -/
theorem out_of_rows_terminal_witness :
    runGo envTriv 2 Node.genCaption ⟨[], 0, none, none, none, none⟩ =
      (Node.endN, ⟨[], 0, none, none, none, some "No more rows to process"⟩) :=
  ((out_of_rows_terminal envTriv 0 ⟨[], 0, none, none, none, none⟩ (by decide)).1 rfl).1

/-! ### C1: a publish failure ends the whole run -/

/-- Counterexample for C1: under `envC1` row index 0 fails at the Instagram
publish and the run immediately reaches `END` with `current_row_index = 0` —
row index 1 is never processed in this run even though every one of its calls
would succeed (last conjunct: its Instagram step would pass); the failure is
therefore fatal to the run, not per-row. -/
theorem run_ends_after_instagram_failure_counterexample :
    runWorkflow envC1 30 = (Node.endN, stFinalC1) ∧
      stFinalC1.current_row_index = 0 ∧
      truthyO stFinalC1.error = true ∧
      decide_after_instagram (create_instagram_post (envC1.igContainer 1) (envC1.igPublish 1)
        { stFinalC1 with current_row_index := 1, error := none }) = true := by
  refine ⟨by decide, by decide, by decide, by decide⟩

/-- Claim C1 (amended): a failure at the Instagram or Facebook publish step
(conditional edge decides `END`) abandons the row — the clear step is
forfeited and the index is unchanged, so the row stays in the source — and
terminates the entire run at once: no later row is processed in this run. -/
theorem publish_failure_terminates_run (env : Env) (f : Nat) (s : WorkflowState) :
    (decide_after_instagram (create_instagram_post (env.igContainer s.current_row_index)
        (env.igPublish s.current_row_index) s) = false →
      runGo env (f + 1) Node.igPost s =
        (Node.endN, create_instagram_post (env.igContainer s.current_row_index)
          (env.igPublish s.current_row_index) s)) ∧
    (decide_after_facebook (create_facebook_post (env.fb s.current_row_index) s) = false →
      runGo env (f + 1) Node.fbPost s =
        (Node.endN, create_facebook_post (env.fb s.current_row_index) s)) ∧
    (create_instagram_post (env.igContainer s.current_row_index)
        (env.igPublish s.current_row_index) s).current_row_index = s.current_row_index ∧
    (create_facebook_post (env.fb s.current_row_index) s).current_row_index =
      s.current_row_index := by
  refine ⟨?_, ?_, create_instagram_post_idx _ _ _, create_facebook_post_idx _ _⟩
  · intro hd
    rw [runGo_succ env f Node.igPost s (by simp)]
    simp [stepNode, hd, runGo_endN]
  · intro hd
    rw [runGo_succ env f Node.fbPost s (by simp)]
    simp [stepNode, hd, runGo_endN]

/-- Witness for C1 (amended) at the failing row of `envC9`. -/
theorem publish_failure_terminates_run_witness :
    runGo envC9 1 Node.igPost stRow1 =
      (Node.endN, create_instagram_post (envC9.igContainer 0) (envC9.igPublish 0) stRow1) :=
  (publish_failure_terminates_run envC9 0 stRow1).1 (by decide)

/-! ### C9: index monotonicity -/

/-- Counterexample for C9: a run whose only row is abandoned at the Instagram
publish terminates with `current_row_index = 0` — the abandoned row does not
advance the index by 1 (the run ends instead). -/
theorem abandoned_row_does_not_advance_counterexample :
    runWorkflow envC9 20 = (Node.endN, stFinalC9) ∧
      stFinalC9.current_row_index = 0 ∧
      stFinalC9.rows ≠ [] ∧
      truthyO stFinalC9.error = true := by
  refine ⟨by decide, by decide, by decide, by decide⟩

/-- Claim C9 (amended): after `filter_rows`, every node execution leaves
`current_row_index` unchanged or increments it by exactly 1 (it never
decreases and never jumps), and the increment happens precisely when
`clear_row` runs on an in-bounds (completed) row; an abandoned row terminates
the run without advancing the index. -/
theorem index_monotone_step (env : Env) (n : Node) (s : WorkflowState)
    (h : n ≠ Node.filterRows) :
    s.current_row_index ≤ ((stepNode env n s).2).current_row_index ∧
      ((stepNode env n s).2).current_row_index ≤ s.current_row_index + 1 ∧
      (((stepNode env n s).2).current_row_index = s.current_row_index + 1 ↔
        (n = Node.clearRowN ∧ s.current_row_index < s.rows.length)) := by
  cases n with
  | filterRows => exact absurd rfl h
  | genCaption =>
    have hidx : ((stepNode env Node.genCaption s).2).current_row_index =
        s.current_row_index := generate_caption_idx _ s
    rw [hidx]
    refine ⟨Nat.le_refl _, Nat.le_succ _, ?_, ?_⟩
    · intro h2
      exact absurd h2 (by omega)
    · rintro ⟨h3, -⟩
      exact absurd h3 (by decide)
  | igPost =>
    have hidx : ((stepNode env Node.igPost s).2).current_row_index =
        s.current_row_index := create_instagram_post_idx _ _ s
    rw [hidx]
    refine ⟨Nat.le_refl _, Nat.le_succ _, ?_, ?_⟩
    · intro h2
      exact absurd h2 (by omega)
    · rintro ⟨h3, -⟩
      exact absurd h3 (by decide)
  | fbPost =>
    have hidx : ((stepNode env Node.fbPost s).2).current_row_index =
        s.current_row_index := create_facebook_post_idx _ s
    rw [hidx]
    refine ⟨Nat.le_refl _, Nat.le_succ _, ?_, ?_⟩
    · intro h2
      exact absurd h2 (by omega)
    · rintro ⟨h3, -⟩
      exact absurd h3 (by decide)
  | clearRowN =>
    by_cases hb : s.current_row_index < s.rows.length
    · have hidx : ((stepNode env Node.clearRowN s).2).current_row_index =
          s.current_row_index + 1 := by
        show (clear_row (env.clear s.current_row_index) s).current_row_index = _
        rw [clear_row_inbounds_eq _ s hb]
      rw [hidx]
      exact ⟨Nat.le_succ _, Nat.le_refl _, by simp [hb]⟩
    · have hidx : ((stepNode env Node.clearRowN s).2).current_row_index =
          s.current_row_index := by
        show (clear_row (env.clear s.current_row_index) s).current_row_index = _
        unfold clear_row
        rw [if_pos (Nat.not_lt.mp hb)]
      rw [hidx]
      refine ⟨Nat.le_refl _, Nat.le_succ _, ?_, ?_⟩
      · intro h2
        exact absurd h2 (by omega)
      · rintro ⟨-, h2⟩
        exact absurd h2 hb
  | endN =>
    have hidx : ((stepNode env Node.endN s).2).current_row_index =
        s.current_row_index := rfl
    rw [hidx]
    refine ⟨Nat.le_refl _, Nat.le_succ _, ?_, ?_⟩
    · intro h2
      exact absurd h2 (by omega)
    · rintro ⟨h3, -⟩
      exact absurd h3 (by decide)

/-- Witness for C9 (amended) at a concrete non-filter node and state. -/
theorem index_monotone_step_witness :
    stRow1.current_row_index ≤ ((stepNode envTriv Node.genCaption stRow1).2).current_row_index ∧
      ((stepNode envTriv Node.genCaption stRow1).2).current_row_index ≤
        stRow1.current_row_index + 1 ∧
      (((stepNode envTriv Node.genCaption stRow1).2).current_row_index =
          stRow1.current_row_index + 1 ↔
        (Node.genCaption = Node.clearRowN ∧
          stRow1.current_row_index < stRow1.rows.length)) :=
  index_monotone_step envTriv Node.genCaption stRow1 (by decide)

/-! ### C2: filter characterization -/

/-- The qualification test unfolded into its three conditions. -/
theorem rowQualifies_iff (row : List String) :
    rowQualifies row = true ↔
      1 < row.length ∧ row.headD "" ≠ "" ∧ (row.get? 1).getD "" ≠ "" := by
  simp [rowQualifies, truthyS, and_assoc]

/-- Membership in the filtered list, with the enumeration offset explicit. -/
theorem filter_rows_aux_mem (l : List (List String)) (i : Nat) (r : Row) :
    r ∈ filter_rows_aux i l ↔
      ∃ j row, l.get? j = some row ∧ rowQualifies row = true ∧
        r = ⟨i + j + 2, row.headD "", (row.get? 1).getD ""⟩ := by
  induction l generalizing i with
  | nil => simp [filter_rows_aux]
  | cons hd tl ih =>
    by_cases hq : rowQualifies hd
    · rw [filter_rows_aux, if_pos hq]
      rw [List.mem_cons, ih (i + 1)]
      constructor
      · rintro (rfl | ⟨j, row, hg, hq2, rfl⟩)
        · exact ⟨0, hd, rfl, hq, by rw [Nat.add_zero]⟩
        · refine ⟨j + 1, row, by simpa using hg, hq2, ?_⟩
          have : i + 1 + j + 2 = i + (j + 1) + 2 := by omega
          rw [this]
      · rintro ⟨j, row, hg, hq2, rfl⟩
        cases j with
        | zero =>
          left
          have hrow : row = hd := by simpa using hg.symm
          subst hrow
          rw [Nat.add_zero]
        | succ j =>
          right
          refine ⟨j, row, by simpa using hg, hq2, ?_⟩
          have : i + (j + 1) + 2 = i + 1 + j + 2 := by omega
          rw [this]
    · rw [filter_rows_aux, if_neg hq]
      rw [ih (i + 1)]
      constructor
      · rintro ⟨j, row, hg, hq2, rfl⟩
        refine ⟨j + 1, row, by simpa using hg, hq2, ?_⟩
        have : i + 1 + j + 2 = i + (j + 1) + 2 := by omega
        rw [this]
      · rintro ⟨j, row, hg, hq2, rfl⟩
        cases j with
        | zero =>
          have hrow : row = hd := by simpa using hg.symm
          subst hrow
          exact absurd hq2 hq
        | succ j =>
          refine ⟨j, row, by simpa using hg, hq2, ?_⟩
          have : i + (j + 1) + 2 = i + 1 + j + 2 := by omega
          rw [this]

/-- Claim C2: `filter_rows` keeps exactly the post-header rows whose first two
cells are non-empty, assigning `row_number = offset-in-data-rows + 2`; and on
the spec's concrete table the filtered row numbers are `[2, 4]`. -/
theorem filter_rows_characterization :
    (∀ (values : List (List String)) (r : Row),
      r ∈ filter_rows_core values ↔
        ∃ j row, (values.drop 1).get? j = some row ∧ 1 < row.length ∧
          row.headD "" ≠ "" ∧ (row.get? 1).getD "" ≠ "" ∧
          r = ⟨j + 2, row.headD "", (row.get? 1).getD ""⟩) ∧
    (filter_rows_core
        [["p", "u"], ["desc1", "http://a"], ["", "http://b"], ["desc3", "http://c"]]).map
      Row.row_number = [2, 4] := by
  constructor
  · intro values r
    rw [filter_rows_core, filter_rows_aux_mem]
    constructor
    · rintro ⟨j, row, hg, hq, rfl⟩
      rw [rowQualifies_iff] at hq
      exact ⟨j, row, hg, hq.1, hq.2.1, hq.2.2, by rw [Nat.zero_add]⟩
    · rintro ⟨j, row, hg, h1, h2, h3, rfl⟩
      exact ⟨j, row, hg, (rowQualifies_iff row).mpr ⟨h1, h2, h3⟩, by rw [Nat.zero_add]⟩
  · decide

/-! ### C4: exhausting all retryable attempts -/

/-- One-step unfolding of the sheets retry loop. -/
theorem sheets_retry_go_succ {α : Type} (resp : Nat → SheetsCallOutcome α) (a r : Nat) :
    sheets_retry_go resp a (r + 1) =
      match resp a with
      | .ok v => (.ok v, [.attempt a])
      | .httpError st =>
        if sheetsRetryableStatus st then
          ((sheets_retry_go resp (a + 1) r).1,
            .attempt a :: .sleep (2 ^ a) :: (sheets_retry_go resp (a + 1) r).2)
        else
          (.raised st, [.attempt a]) := rfl

/-- One retryable sheets attempt: emit the attempt and a `2^a` sleep, recurse. -/
theorem sheets_retry_go_retryable_step {α : Type} (resp : Nat → SheetsCallOutcome α)
    (a r : Nat) (h : sheetsCallRetryable (resp a) = true) :
    sheets_retry_go resp a (r + 1) =
      ((sheets_retry_go resp (a + 1) r).1,
        .attempt a :: .sleep (2 ^ a) :: (sheets_retry_go resp (a + 1) r).2) := by
  rw [sheets_retry_go_succ resp a r]
  cases hr : resp a with
  | ok v =>
    rw [hr] at h
    simp [sheetsCallRetryable] at h
  | httpError st =>
    rw [hr] at h
    simp only [sheetsCallRetryable] at h
    simp [h]

/-- If every attempt of a sheets retry loop is retryable, the loop exhausts
its budget: result `maxRetriesExceeded`, trace `attempt a, sleep 2^a, ...`. -/
theorem sheets_retry_go_all_retryable {α : Type} (resp : Nat → SheetsCallOutcome α) :
    ∀ (r a : Nat), (∀ n, n < r → sheetsCallRetryable (resp (a + n)) = true) →
      sheets_retry_go resp a r = (.maxRetriesExceeded, retryTraceFrom a r) := by
  intro r
  induction r with
  | zero => intro a _; rfl
  | succ r ih =>
    intro a hall
    have h0 : sheetsCallRetryable (resp a) = true := by
      have := hall 0 (Nat.succ_pos r)
      simpa using this
    rw [sheets_retry_go_retryable_step resp a r h0]
    rw [ih (a + 1) (fun n hn => by
      have := hall (n + 1) (Nat.succ_lt_succ hn)
      rwa [show a + (n + 1) = a + 1 + n by omega] at this)]
    rfl

/-- One-step unfolding of the publish retry loop. -/
theorem media_publish_go_succ (pub : Nat → HttpResp) (a : Nat) (last : String) (r : Nat) :
    media_publish_go pub a last (r + 1) =
      match classifyIG (pub a) with
      | .success => (.success ((pub a).id.getD ""), [.attempt a])
      | .retrySleep =>
        ((media_publish_go pub (a + 1) (pub a).text r).1,
          .attempt a :: .sleep (2 ^ a) :: (media_publish_go pub (a + 1) (pub a).text r).2)
      | .fatalHttp => (.fatal (pub a).status, [.attempt a])
      | .reattempt =>
        ((media_publish_go pub (a + 1) (pub a).text r).1,
          .attempt a :: (media_publish_go pub (a + 1) (pub a).text r).2) := rfl

/-- One retry-classified publish attempt: attempt, sleep `2^a`, recurse. -/
theorem media_publish_go_step_retry (pub : Nat → HttpResp) (a : Nat) (last : String)
    (r : Nat) (h : classifyIG (pub a) = .retrySleep) :
    media_publish_go pub a last (r + 1) =
      ((media_publish_go pub (a + 1) (pub a).text r).1,
        .attempt a :: .sleep (2 ^ a) :: (media_publish_go pub (a + 1) (pub a).text r).2) := by
  rw [media_publish_go_succ pub a last r, h]

/-- One success-classified publish attempt returns immediately. -/
theorem media_publish_go_step_success (pub : Nat → HttpResp) (a : Nat) (last : String)
    (r : Nat) (h : classifyIG (pub a) = .success) :
    media_publish_go pub a last (r + 1) =
      (.success ((pub a).id.getD ""), [.attempt a]) := by
  unfold media_publish_go
  simp [h]

/-- One fatal-classified publish attempt aborts immediately. -/
theorem media_publish_go_step_fatal (pub : Nat → HttpResp) (a : Nat) (last : String)
    (r : Nat) (h : classifyIG (pub a) = .fatalHttp) :
    media_publish_go pub a last (r + 1) = (.fatal (pub a).status, [.attempt a]) := by
  unfold media_publish_go
  simp [h]

/-- One fall-through publish attempt: attempt with no sleep, recurse. -/
theorem media_publish_go_step_reattempt (pub : Nat → HttpResp) (a : Nat) (last : String)
    (r : Nat) (h : classifyIG (pub a) = .reattempt) :
    media_publish_go pub a last (r + 1) =
      ((media_publish_go pub (a + 1) (pub a).text r).1,
        .attempt a :: (media_publish_go pub (a + 1) (pub a).text r).2) := by
  rw [media_publish_go_succ pub a last r, h]

/-- A publish loop all of whose attempts are retry-classified exhausts its
budget, sleeping `2^a` after every attempt, the last included; the surfaced
exhaustion failure carries the last response's text. -/
theorem media_publish_go_all_retry (pub : Nat → HttpResp) :
    ∀ (r a : Nat) (last : String), (∀ n, n < r → classifyIG (pub (a + n)) = .retrySleep) →
      media_publish_go pub a last r =
        (.exhausted (if r = 0 then last else (pub (a + r - 1)).text), retryTraceFrom a r) := by
  intro r
  induction r with
  | zero => intro a last _; rfl
  | succ r ih =>
    intro a last hall
    have h0 : classifyIG (pub a) = .retrySleep := by
      have := hall 0 (Nat.succ_pos r)
      simpa using this
    rw [media_publish_go_step_retry pub a last r h0]
    rw [ih (a + 1) (pub a).text (fun n hn => by
      have := hall (n + 1) (Nat.succ_lt_succ hn)
      rwa [show a + (n + 1) = a + 1 + n by omega] at this)]
    have htext : (if r = 0 then (pub a).text else (pub (a + 1 + r - 1)).text) =
        (pub (a + (r + 1) - 1)).text := by
      cases r with
      | zero => simp
      | succ r2 =>
        rw [if_neg (Nat.succ_ne_zero r2)]
        rw [show a + 1 + (r2 + 1) - 1 = a + (r2 + 1 + 1) - 1 by omega]
    rw [htext]
    simp [retryTraceFrom]

/-- A publish loop all of whose attempts fall through (no sleep) exhausts its
budget with a trace of bare attempts. -/
theorem media_publish_go_all_reattempt (pub : Nat → HttpResp) :
    ∀ (r a : Nat) (last : String), (∀ n, n < r → classifyIG (pub (a + n)) = .reattempt) →
      media_publish_go pub a last r =
        (.exhausted (if r = 0 then last else (pub (a + r - 1)).text), attemptTraceFrom a r) := by
  intro r
  induction r with
  | zero => intro a last _; rfl
  | succ r ih =>
    intro a last hall
    have h0 : classifyIG (pub a) = .reattempt := by
      have := hall 0 (Nat.succ_pos r)
      simpa using this
    rw [media_publish_go_step_reattempt pub a last r h0]
    rw [ih (a + 1) (pub a).text (fun n hn => by
      have := hall (n + 1) (Nat.succ_lt_succ hn)
      rwa [show a + (n + 1) = a + 1 + n by omega] at this)]
    have htext : (if r = 0 then (pub a).text else (pub (a + 1 + r - 1)).text) =
        (pub (a + (r + 1) - 1)).text := by
      cases r with
      | zero => simp
      | succ r2 =>
        rw [if_neg (Nat.succ_ne_zero r2)]
        rw [show a + 1 + (r2 + 1) - 1 = a + (r2 + 1 + 1) - 1 by omega]
    rw [htext]
    simp [attemptTraceFrom]

/-- Claim C4: for every retried call — the spreadsheet fetch and clear share
`sheets_retry`, Instagram publishing uses `media_publish` — in which all
attempts are classified retryable, exactly 5 attempts are made, the sleeps
are `[1, 2, 4, 8, 16]` (`2^attempt` from attempt 0, strictly increasing) with
exactly 4 of them occurring between attempts, and a max-retries-exceeded
failure is surfaced. -/
theorem retry_exhaustion_backoff {α : Type} (rs : Nat → SheetsCallOutcome α)
    (pub : Nat → HttpResp)
    (hs : ∀ n, n < 5 → sheetsCallRetryable (rs n) = true)
    (hp : ∀ n, n < 5 → classifyIG (pub n) = .retrySleep) :
    sheets_retry rs = (.maxRetriesExceeded, fullRetryTrace) ∧
      media_publish pub = (.exhausted (pub 4).text, fullRetryTrace) ∧
      attemptCount fullRetryTrace = 5 ∧
      sleepsOf fullRetryTrace = [1, 2, 4, 8, 16] ∧
      sleepsBetweenAttempts fullRetryTrace = [1, 2, 4, 8] := by
  refine ⟨?_, ?_, by decide, by decide, by decide⟩
  · have h5 : ∀ n, n < 5 → sheetsCallRetryable (rs (0 + n)) = true := by
      intro n hn
      rw [Nat.zero_add]
      exact hs n hn
    have := sheets_retry_go_all_retryable rs 5 0 h5
    rw [sheets_retry, this]
    rfl
  · have h5 : ∀ n, n < 5 → classifyIG (pub (0 + n)) = .retrySleep := by
      intro n hn
      rw [Nat.zero_add]
      exact hp n hn
    have := media_publish_go_all_retry pub 5 0 "" h5
    rw [media_publish, this]
    rfl

/-- Witness for C4 with a constantly-503 sheets oracle and a constantly
media-not-ready publish oracle. -/
theorem retry_exhaustion_backoff_witness :
    sheets_retry rsW = (.maxRetriesExceeded, fullRetryTrace) ∧
      media_publish pubW = (.exhausted "nr", fullRetryTrace) ∧
      attemptCount fullRetryTrace = 5 ∧
      sleepsOf fullRetryTrace = [1, 2, 4, 8, 16] ∧
      sleepsBetweenAttempts fullRetryTrace = [1, 2, 4, 8] :=
  retry_exhaustion_backoff rsW pubW (fun _ _ => rfl) (fun _ _ => rfl)

/-! ### C5: retryable classification of the publish step -/

/-- The retry branch is taken exactly for a non-200 status together with the
(9007, 2207027) error pair. -/
theorem classifyIG_retrySleep_iff (pr : HttpResp) :
    classifyIG pr = .retrySleep ↔
      pr.status ≠ 200 ∧ pr.errorCode = some 9007 ∧ pr.errorSubcode = some 2207027 := by
  unfold classifyIG
  by_cases h1 : pr.status = 200
  · rw [if_pos h1]
    constructor
    · intro h2
      by_cases h3 : truthyO pr.id = true
      · rw [if_pos h3] at h2
        exact absurd h2 (by decide)
      · rw [if_neg h3] at h2
        exact absurd h2 (by decide)
    · rintro ⟨h2, -⟩
      exact absurd h1 h2
  · rw [if_neg h1]
    by_cases h2 : pr.errorCode = some 9007 ∧ pr.errorSubcode = some 2207027
    · rw [if_pos h2]
      exact ⟨fun _ => ⟨h1, h2⟩, fun _ => rfl⟩
    · rw [if_neg h2]
      constructor
      · intro h3
        by_cases h4 : httpFatalStatus pr.status = true
        · rw [if_pos h4] at h3
          exact absurd h3 (by decide)
        · rw [if_neg h4] at h3
          exact absurd h3 (by decide)
      · rintro ⟨-, h3⟩
        exact absurd h3 h2

/-- Every non-empty publish trace starts with its first attempt. -/
theorem media_publish_go_trace_head (pub : Nat → HttpResp) (a : Nat) (last : String)
    (r : Nat) :
    (media_publish_go pub a last (r + 1)).2.head? = some (.attempt a) := by
  rw [media_publish_go_succ pub a last r]
  cases hc : classifyIG (pub a) <;> rfl

/-- Claim C5 (amended): an attempt of the Instagram `media_publish` loop is
classified retryable — a `2^attempt` sleep immediately follows it — exactly
when the response status is NOT 200 and the body carries the
(9007, 2207027) pair (a 200-status body carrying the pair is not retried with
a sleep); and a response with status in `[400, 600)` without the pair aborts
the loop at once as a fatal HTTP error. -/
theorem media_publish_retry_classification (pub : Nat → HttpResp) (a r : Nat)
    (last : String) :
    ((media_publish_go pub a last (r + 1)).2.get? 1 = some (.sleep (2 ^ a)) ↔
      (pub a).status ≠ 200 ∧ (pub a).errorCode = some 9007 ∧
        (pub a).errorSubcode = some 2207027) ∧
    (httpFatalStatus (pub a).status = true →
      ¬((pub a).errorCode = some 9007 ∧ (pub a).errorSubcode = some 2207027) →
      media_publish_go pub a last (r + 1) = (.fatal (pub a).status, [.attempt a])) := by
  constructor
  · rw [← classifyIG_retrySleep_iff]
    cases hc : classifyIG (pub a) with
    | success =>
      rw [media_publish_go_step_success pub a last r hc]
      simp
    | retrySleep =>
      rw [media_publish_go_step_retry pub a last r hc]
      simp
    | fatalHttp =>
      rw [media_publish_go_step_fatal pub a last r hc]
      simp
    | reattempt =>
      rw [media_publish_go_step_reattempt pub a last r hc]
      constructor
      · intro h2
        cases r with
        | zero => simp [media_publish_go] at h2
        | succ r2 =>
          rw [show ((Event.attempt a :: (media_publish_go pub (a + 1) (pub a).text
              (r2 + 1)).2).get? 1) = (media_publish_go pub (a + 1) (pub a).text
              (r2 + 1)).2.head? by rw [List.get?_cons_succ, List.get?_zero]] at h2
          rw [media_publish_go_trace_head pub (a + 1) (pub a).text r2] at h2
          exact absurd h2 (by simp)
      · intro h2
        exact absurd h2 (by simp)
  · intro hf hnp
    have h200 : (pub a).status ≠ 200 := by
      intro h
      rw [h] at hf
      simp [httpFatalStatus] at hf
    have hc : classifyIG (pub a) = .fatalHttp := by
      unfold classifyIG
      rw [if_neg h200, if_neg hnp, if_pos hf]
    rw [media_publish_go_step_fatal pub a last r hc]

/-- Counterexample for C5: (a) a response whose body carries the
(9007, 2207027) pair but whose HTTP status is 200 is NOT classified
retryable — all five such attempts run with zero sleeps; (b) a non-2xx (301)
response without the pair is not fatal either — the loop just re-attempts. -/
theorem instagram_retry_classification_counterexample :
    ((pubC5 0).errorCode = some 9007 ∧ (pubC5 0).errorSubcode = some 2207027 ∧
      (pubC5 0).status = 200) ∧
    media_publish pubC5 =
      (.exhausted "nr", [.attempt 0, .attempt 1, .attempt 2, .attempt 3, .attempt 4]) ∧
    sleepsOf (media_publish pubC5).2 = [] ∧
    ((pubC5b 0).status ≠ 200 ∧
      ¬((pubC5b 0).errorCode = some 9007 ∧ (pubC5b 0).errorSubcode = some 2207027)) ∧
    media_publish pubC5b =
      (.exhausted "redir", [.attempt 0, .attempt 1, .attempt 2, .attempt 3, .attempt 4]) := by
  refine ⟨by decide, by decide, by decide, by decide, by decide⟩

/-- Witness for C5 (amended): a 400 response without the pair aborts fatally
on the first attempt. -/
theorem media_publish_retry_classification_witness :
    media_publish_go pubC5w 0 "" 5 = (.fatal 400, [.attempt 0]) :=
  (media_publish_retry_classification pubC5w 0 4 "").2 (by decide) (by decide)

/-! ### C6: media-not-ready then success scenario -/

/-- Claim C6: if the publish responses carry the media-not-ready pair on
attempts 1-3 (indices 0-2) and HTTP 200 with id "999" on attempt 4, the loop
returns post id "999" immediately after 4 attempts with exactly the sleeps
[1, 2, 4], and `create_instagram_post` stores that post id. -/
theorem media_not_ready_then_success_scenario :
    media_publish pubC6 =
      (.success "999",
        [.attempt 0, .sleep 1, .attempt 1, .sleep 2, .attempt 2, .sleep 4, .attempt 3]) ∧
    sleepsOf (media_publish pubC6).2 = [1, 2, 4] ∧
    attemptCount (media_publish pubC6).2 = 4 ∧
    create_instagram_post contOK pubC6 stRow1 =
      { stRow1 with post_id := some "999", error := none } := by
  refine ⟨by decide, by decide, by decide, by decide⟩

/-! ### C10: 200 responses without an id -/

/-- A 200 response without an id field falls through the loop body. -/
theorem classifyIG_reattempt_200_noid (pr : HttpResp) (h1 : pr.status = 200)
    (h2 : pr.id = none) : classifyIG pr = .reattempt := by
  unfold classifyIG
  rw [if_pos h1, h2]
  rfl

/-- Claim C10: a publish attempt answered 200 without an `id` is neither a
success nor a classified failure — the loop re-attempts immediately with no
sleep; five such attempts exhaust the loop, and `create_instagram_post`
records the "Failed to publish media after 5 attempts" error in the context
instead of raising. -/
theorem publish_200_without_id_reattempts (pub : Nat → HttpResp) (cont : HttpResp)
    (s : WorkflowState)
    (h : ∀ n, n < 5 → (pub n).status = 200 ∧ (pub n).id = none)
    (he : s.error = none) (hb : s.current_row_index < s.rows.length)
    (hc1 : httpFatalStatus cont.status = false) (hc2 : truthyO cont.id = true) :
    media_publish pub =
      (.exhausted (pub 4).text,
        [.attempt 0, .attempt 1, .attempt 2, .attempt 3, .attempt 4]) ∧
    sleepsOf (media_publish pub).2 = [] ∧
    (create_instagram_post cont pub s).error =
      some ("Error creating Instagram post: Failed to publish media after 5 attempts: "
        ++ (pub 4).text) := by
  have hm : media_publish pub =
      (.exhausted (pub 4).text,
        [.attempt 0, .attempt 1, .attempt 2, .attempt 3, .attempt 4]) := by
    have h5 : ∀ n, n < 5 → classifyIG (pub (0 + n)) = .reattempt := by
      intro n hn
      rw [Nat.zero_add]
      exact classifyIG_reattempt_200_noid (pub n) (h n hn).1 (h n hn).2
    have := media_publish_go_all_reattempt pub 5 0 "" h5
    rw [media_publish, this]
    rfl
  refine ⟨hm, by rw [hm]; rfl, ?_⟩
  unfold create_instagram_post
  rw [he]
  rw [if_neg (by simp [truthyO])]
  rw [if_neg (Nat.not_le.mpr hb)]
  rw [if_neg (by simp [hc1])]
  rw [if_neg (by simp [hc2])]
  rw [hm]

/-- Witness for C10 with a constant 200-no-id oracle at a concrete state. -/
theorem publish_200_without_id_reattempts_witness :
    media_publish pub200 =
      (.exhausted "body", [.attempt 0, .attempt 1, .attempt 2, .attempt 3, .attempt 4]) ∧
    sleepsOf (media_publish pub200).2 = [] ∧
    (create_instagram_post contOK pub200 stRow1).error =
      some "Error creating Instagram post: Failed to publish media after 5 attempts: body" :=
  publish_200_without_id_reattempts pub200 contOK stRow1
    (fun _ _ => ⟨rfl, rfl⟩) rfl (by decide) rfl rfl
